import Mathlib

/-!
# Verification of the DDH-based Private Intersection-Sum source

Shallow embedding of `src/ddh_psi_sum.py` (a two-party PSI-SUM protocol over
the NIST P-256 curve with Paillier-style additively homomorphic encryption,
using the python `cryptography` and `phe` libraries).

Python exceptions are modelled explicitly with a result monad `PyRes`: a
Python function that raises is a Lean function returning `PyRes.error e`
where `e` records the exception class (`ValueError`, `TypeError`,
`AttributeError`).  Library calls are modelled by their documented
behaviour; each modelling definition's doc comment names the library call
and the source line it embeds.

Byte strings are `List Nat`; SHA-256 is kept abstract (an arbitrary
function argument `sha`), because no theorem below depends on actual hash
values: the source fails before any hash output is consumed.
-/

/-- Byte strings (`bytes` in Python). Each entry is one byte. -/
abbrev Bytes := List Nat

/-- The exception classes raised by the source and the libraries it calls. -/
inductive PyErr : Type where
  /-- Python `ValueError` (invalid point, invalid scalar, hash failure …). -/
  | valueError
  /-- Python `TypeError` (wrong arguments to a call). -/
  | typeError
  /-- Python `AttributeError` (attribute lookup on an object lacking it). -/
  | attributeError
  deriving DecidableEq

/-- Result of running a piece of Python code: a value, or an uncaught
exception that aborts the enclosing computation. -/
inductive PyRes (α : Type) : Type where
  | ok (a : α)
  | error (e : PyErr)
  deriving DecidableEq

namespace PyRes

def bind : PyRes α → (α → PyRes β) → PyRes β
  | .ok a, f => f a
  | .error e, _ => .error e

/-- Sequential left-to-right processing of a list, aborting at the first
exception — the semantics of a Python `for` loop or list comprehension
whose body may raise. -/
def mapM (f : α → PyRes β) : List α → PyRes (List β)
  | [] => .ok []
  | a :: as => bind (f a) (fun b => bind (mapM f as) (fun bs => .ok (b :: bs)))

end PyRes

/-! ## The NIST P-256 curve (`prime256v1`, the curve `ec.SECP256R1()` selects)

Domain parameters from SEC 2 / FIPS 186-4: the prime field modulus `p256p`,
the coefficient `b` (`p256b`; the coefficient `a` is `p − 3`), and the
prime group order `p256n`. -/

/-- The P-256 field prime. -/
def p256p : Nat := 0xffffffff00000001000000000000000000000000ffffffffffffffffffffffff

/-- The P-256 curve coefficient `b` (the coefficient `a` is `p256p − 3`). -/
def p256b : Nat := 0x5ac635d8aa3a93e7b3ebbd55769886bc651d06b0cc53b0f63bce3c3e27d2604b

/-- The P-256 prime group order `q` (cofactor 1). -/
def p256n : Nat := 0xffffffff00000000ffffffffffffffffbce6faada7179e84f3b9cac2fc632551

/-- An affine point, as the pair of public numbers `(x, y)` the library's
`EllipticCurvePublicNumbers` carries. -/
abbrev Pt := Nat × Nat

/-- On-curve test for P-256: both coordinates are field elements and
`y² ≡ x³ − 3·x + b (mod p)`.  This is the validity check the library
(backed by OpenSSL) performs when a point is loaded or serialized. -/
def onCurve (x y : Nat) : Bool :=
  decide (x < p256p) && decide (y < p256p) &&
    decide ((y * y) % p256p = (x * x * x + (p256p - 3) * x + p256b) % p256p)

/-- Fuel-bounded binary modular exponentiation, used only to model the
square-root step of compressed-point decoding (`p256p ≡ 3 mod 4`, so a
square root of a quadratic residue `a` is `a^((p+1)/4) mod p`).  The fuel
`f` bounds the recursion depth; 512 exceeds the ≤ 254 halvings needed for
the fixed exponent `(p256p + 1) / 4`. -/
def powModAux : Nat → Nat → Nat → Nat → Nat
  | 0, _, _, m => 1 % m
  | f + 1, b, e, m =>
    if e = 0 then 1 % m
    else
      let r := powModAux f (b * b % m) (e / 2) m
      if e % 2 = 1 then r * b % m else r

/-- `powMod b e m = b ^ e mod m` for exponents of at most 512 bits. -/
def powMod (b e m : Nat) : Nat := powModAux 512 b e m

/-- A transmitted point encoding: the X9.62 forms the library understands.
`compressed par x` is the 33-byte SEC1 compressed form (tag `02`/`03`
giving the parity `par` of `y`, then the 32-byte `x`); `uncompressed x y`
is the 65-byte `04`-tagged form.  Any other byte string fails decoding. -/
inductive EncPt : Type where
  | compressed (par : Bool) (x : Nat)
  | uncompressed (x y : Nat)
  deriving DecidableEq

/-- Models `ec.EllipticCurvePublicKey.from_encoded_point(curve, data)`
followed by `.public_numbers()` (source lines 83, 89, 117 and 13–16): the
library decodes the X9.62 encoding and validates the point, raising
`ValueError` when the bytes do not denote an on-curve point (for the
compressed form: when `x` is not a field element or `x³ − 3x + b` is not a
quadratic residue). -/
def decompressY (par : Bool) (x : Nat) : Nat :=
  let s := powMod ((x * x * x + (p256p - 3) * x + p256b) % p256p) ((p256p + 1) / 4) p256p
  if (decide (s % 2 = 1)) == par then s else (p256p - s) % p256p

def from_encoded_point : EncPt → PyRes Pt
  | .uncompressed x y =>
    if onCurve x y then .ok (x, y) else .error .valueError
  | .compressed par x =>
    if p256p ≤ x then .error .valueError
    else if onCurve x (decompressY par x) then .ok (x, decompressY par x)
    else .error .valueError

/-- Models `e.to_key().public_bytes(Encoding.X962, PublicFormat.CompressedPoint)`
(source lines 74, 119, 128): `EllipticCurvePublicNumbers` has no `to_key`
method, so the attribute lookup raises `AttributeError` for every point
and the compressed serialization is never produced.  (In the protocol
these lines are already unreachable: the preceding `exponentiate` always
raises.) -/
def to_key_compressed (_P : Pt) : PyRes EncPt := .error .attributeError

/-! ## `DDHGroup.hash_to_curve` (source lines 18–32)

Each loop iteration first evaluates
`int.from_bytes(digest.finalize(), 'big') % self.curve.field_size`
(line 25), which is *outside* the `try` of line 26.  The library's curve
classes (`ec.SECP256R1` and the `EllipticCurve` interface) expose only
`name` and `key_size`; there is no `field_size` attribute, so the lookup
raises `AttributeError` — on the first iteration and out of the function,
since the `except ValueError` handler on line 30 guards only the
constructor call.  (Even granting the attribute, the two-positional-
argument `ec.EllipticCurvePublicNumbers(x, self.curve)` call of line 28 —
the class requires `(x, y, curve)` — would raise `TypeError` inside the
`try`, which the handler also would not catch.)

SHA-256 is kept abstract as `sha`; every theorem below holds for every
hash function: the source fails before any hash output is consumed. -/

/-- Models the attribute lookup `self.curve.field_size` (line 25): the
library's `EllipticCurve` objects have only `name` and `key_size`, so the
lookup raises `AttributeError`. -/
def curve_field_size : PyRes Nat := .error .attributeError

/-- Models line 28: the two-positional-argument call
`ec.EllipticCurvePublicNumbers(x, self.curve)`.  The constructor requires
`(x, y, curve)`; with two arguments the call raises `TypeError` no matter
what `x` is.  (Unreachable: the line-25 attribute lookup raises first.) -/
def publicNumbersFromX (_x : Nat) : PyRes Pt := .error .typeError

/-- `i.to_bytes(4, 'big')` (line 24): 4-byte big-endian encoding. -/
def i32be (i : Nat) : Bytes :=
  [i / 2 ^ 24 % 256, i / 2 ^ 16 % 256, i / 2 ^ 8 % 256, i % 256]

/-- The attempt at counter `i` given a value for `field_size`: the digest
reduction of line 25 (`x = SHA256(data ‖ i32be i) mod fieldSize`) and the
point construction of line 28.  In the real program the `field_size`
lookup raises before any value is available, so this is never entered. -/
def hash_to_curve_try (sha : Bytes → Nat) (fieldSize : Nat) (data : Bytes) (i : Nat) : PyRes Pt :=
  publicNumbersFromX (sha (data ++ i32be i) % fieldSize)

/-- The `for i in range(1000)` loop of lines 22–32 over the remaining
counters.  Per iteration: the `field_size` read (line 25, outside the
`try` — its exception propagates directly), then the attempt; an attempt
raising `ValueError` moves to the next counter (lines 30–31); success
returns the point; any other exception propagates; exhaustion raises
`ValueError("Failed to hash to curve")` (line 32). -/
def hash_to_curve_go (sha : Bytes → Nat) (data : Bytes) : List Nat → PyRes Pt
  | [] => .error .valueError
  | i :: rest =>
    PyRes.bind curve_field_size (fun fieldSize =>
      match hash_to_curve_try sha fieldSize data i with
      | .ok P => .ok P
      | .error .valueError => hash_to_curve_go sha data rest
      | .error e => .error e)

/-- Models `DDHGroup.hash_to_curve(identifier, seed)` (lines 18–32):
`data = seed + identifier` (line 21), then the counter loop. -/
def hash_to_curve (sha : Bytes → Nat) (identifier seed : Bytes) : PyRes Pt :=
  hash_to_curve_go sha (seed ++ identifier) (List.range 1000)

/-! ## `DDHGroup.exponentiate` (source lines 34–46) -/

/-- Models `DDHGroup.exponentiate(point, exponent)` (lines 34–46):
`ec.derive_private_key(exponent, curve)` (line 36) validates
`1 ≤ exponent < q` and raises `ValueError` otherwise (its result is never
used); then `point.to_key()` (line 37) raises `AttributeError` for every
input — `EllipticCurvePublicNumbers` has no `to_key` method (the
numbers-to-key conversion in the library is named `public_key`).  The
coordinate-addition loop of lines 40–45 (plain integer addition of affine
coordinates, `exponent − 1` times) is therefore unreachable, and the
function never returns a point. -/
def exponentiate (_P : Pt) (exponent : Nat) : PyRes Pt :=
  if exponent = 0 ∨ p256n ≤ exponent then .error .valueError
  else .error .attributeError

/-! ## The `phe` Paillier library -/

/-- Syntactic ciphertext algebra of the `phe` library: `enc m r` models
`public_key.encrypt(m)` carrying the obfuscation-randomness tag `r`;
`add c₁ c₂` models `EncryptedNumber.__add__` (homomorphic addition,
lines 101 and 103). -/
inductive Ct : Type where
  | enc (m : Nat) (r : Nat)
  | add (c₁ c₂ : Ct)
  deriving DecidableEq

/-- Models `phe.paillier.generate_paillier_keypair(n_length=L)`: the
library draws random primes `p ≠ q` repeatedly until the public modulus
`n = p·q` has exactly `L` bits; the plaintext modulus of the resulting
key pair is `n`.  This predicate characterises the possible moduli. -/
def phe_keypair_modulus (nLength N : Nat) : Bool :=
  decide (2 ^ (nLength - 1) ≤ N) && decide (N < 2 ^ nLength)

/-- Models `Party.generate_paillier_keypair` (lines 57–59), which calls
`paillier.generate_paillier_keypair(n_length=1536)`: the set of plaintext
moduli the generated key pair can have. -/
def generate_paillier_keypair (N : Nat) : Bool := phe_keypair_modulus 1536 N

/-- Models the attribute lookup `key_pair.public_key` (lines 127 and 140):
`phe.paillier.generate_paillier_keypair` returns the plain tuple
`(public_key, private_key)`, and Python tuples have no attribute
`public_key`, so the lookup raises `AttributeError`. -/
def tuple_public_key (_keyPair : Nat × Nat) : PyRes Nat := .error .attributeError

/-- Models the method lookup-and-call `key_pair.decrypt(c)` (line 135):
tuples have no attribute `decrypt`, so the lookup raises `AttributeError`. -/
def tuple_decrypt (_keyPair : Nat × Nat) (_c : Ct) : PyRes Nat := .error .attributeError

/-! ## Party state and `Party.__init__` (source lines 48–55)

Python `set` inputs are modelled as lists (Python sets iterate in some
order; none of the properties below depends on that order). -/

/-- State of `Party1`: identifier list, hash seed, secret exponent.
(`other_public_key` is passed separately where needed.) -/
structure P1State : Type where
  identifiers : List Bytes
  seed : Bytes
  k : Nat

/-- State of `Party2`: identifier/value pairs, hash seed, secret exponent,
and the `key_pair` tuple returned by `phe`'s key generation (modelled
opaquely as a pair of numbers — only its tuple-ness matters). -/
structure P2State : Type where
  pairs : List (Bytes × Nat)
  seed : Bytes
  k : Nat
  key_pair : Nat × Nat

/-- x-coordinate of the point hard-coded in hex at lines 14–15.  These are
the coordinates of the **secp256k1** base point. -/
def genX : Nat := 0x79BE667EF9DCBBAC55A06295CE870B07029BFCDB2DCE28D959F2815B16F81798

/-- y-coordinate of the point hard-coded in hex at lines 14–15. -/
def genY : Nat := 0x483ADA7726A3C4655DA4FBFC0E1108A8FD17B448A68554199C47D08FFB10D4B8

/-- Models `DDHGroup.__init__` (lines 11–16):
`ec.EllipticCurvePublicKey.from_encoded_point(SECP256R1, 04 ‖ genX ‖ genY)`.
The hard-coded point is secp256k1's base point, which is not on P-256, so
the decode raises `ValueError`. -/
def ddh_group_init : PyRes Pt := from_encoded_point (.uncompressed genX genY)

/-- Models `Party.__init__` (lines 49–55) as a function of the results of
the party's own random draws: `urandSeed` for `os.urandom(16)` (line 54)
and `kdraw` for the `randint` call (line 55).  Line 51 constructs
`DDHGroup()` first; `seed` and `k` are assigned only if that succeeds.
(The `randint` upper-bound expression `self.curve.field_size - 1` is left
unmodelled: line 51 raises before it is evaluated, and `field_size` is not
a documented attribute of the library's curve objects.) -/
def party_init (urandSeed : Bytes) (kdraw : Nat) : PyRes (Bytes × Nat) :=
  PyRes.bind ddh_group_init (fun _ => .ok (urandSeed, kdraw))

/-! ## The protocol rounds (source lines 64–153) -/

/-- Models `Party1.round1` (lines 69–76): hash every identifier with the
party's own seed, exponentiate by the party's `k`, serialize compressed,
shuffle.  `random.shuffle` (line 75) is modelled by an arbitrary
caller-supplied reordering `shuffle`; every theorem below holds for every
such function, hence in particular for the real shuffle. -/
def round1 (sha : Bytes → Nat) (shuffle : List EncPt → List EncPt)
    (p : P1State) : PyRes (List EncPt) :=
  PyRes.bind (PyRes.mapM (fun v => hash_to_curve sha v p.seed) p.identifiers)
    (fun hashed =>
      PyRes.bind (PyRes.mapM (fun h => exponentiate h p.k) hashed) (fun expd =>
        PyRes.bind (PyRes.mapM to_key_compressed expd) (fun result =>
          .ok (shuffle result))))

/-- One iteration of the first loop of `Party2.round2` (lines 115–119):
decode the received point, exponentiate it by P2's `k` (which raises, see
`exponentiate`), re-serialize. -/
def round2_zstep (p2k : Nat) (vBytes : EncPt) : PyRes EncPt :=
  PyRes.bind (from_encoded_point vBytes) (fun point =>
    PyRes.bind (exponentiate point p2k) (fun zPoint => to_key_compressed zPoint))

/-- One iteration of the second loop of `Party2.round2` (lines 124–129):
hash the identifier with the party's own seed (line 125, which raises, see
`hash_to_curve`), exponentiate (line 126), look up
`self.key_pair.public_key` and encrypt the value (line 127 — the lookup
raises `AttributeError`, see `tuple_public_key`; the encryption
randomness tag 0 is never reached), serialize the point (line 128). -/
def round2_wstep (sha : Bytes → Nat) (p : P2State) (wt : Bytes × Nat) :
    PyRes (EncPt × Ct) :=
  PyRes.bind (hash_to_curve sha wt.1 p.seed) (fun wHash =>
    PyRes.bind (exponentiate wHash p.k) (fun wExp =>
      PyRes.bind (tuple_public_key p.key_pair) (fun _pk =>
        PyRes.bind (to_key_compressed wExp) (fun wBytes =>
          .ok (wBytes, Ct.enc wt.2 0)))))

/-- Models `Party2.round2` (lines 112–131).  First loop (lines 115–120):
decode each received point, exponentiate by `p.k`, re-serialize, then
shuffle.  Second loop (lines 122–130): for each own pair, hash the
identifier, exponentiate, encrypt the value, serialize; then shuffle the
pairs. -/
def round2 (sha : Bytes → Nat)
    (shuffleZ : List EncPt → List EncPt)
    (shuffleW : List (EncPt × Ct) → List (EncPt × Ct))
    (p : P2State) (vHashed : List EncPt) : PyRes (List EncPt × List (EncPt × Ct)) :=
  PyRes.bind (PyRes.mapM (round2_zstep p.k) vHashed) (fun z =>
    PyRes.bind (PyRes.mapM (round2_wstep sha p) p.pairs) (fun wPairs =>
      .ok (shuffleZ z, shuffleW wPairs)))

/-- The matching loop of `Party1.round3` (lines 86–92): decode each
received pair's point, exponentiate it by P1's `k`, and collect the
ciphertexts whose exponentiated point occurs among the decoded `Z` points
(the Python `set` membership test of line 91; a list models the set —
membership is unaffected by deduplication). -/
def round3_collect (p1k : Nat) (zPoints : List Pt) : List (EncPt × Ct) → PyRes (List Ct)
  | [] => .ok []
  | (wBytes, encT) :: rest =>
    PyRes.bind (from_encoded_point wBytes) (fun wPoint =>
      PyRes.bind (exponentiate wPoint p1k) (fun wExp =>
        PyRes.bind (round3_collect p1k zPoints rest) (fun tail =>
          .ok (if wExp ∈ zPoints then encT :: tail else tail))))

/-- Models `Party1.round3(z, w_pairs)` (lines 78–104), with
`other_public_key` assumed set and `rid` the fresh obfuscation-randomness
tag of its `encrypt(0)` calls (lines 97 and 103): decode `Z` (lines
81–84), run the matching loop, then either return `encrypt(0)` when the
intersection is empty (lines 96–97) or left-fold the matched ciphertexts
with homomorphic `+` and rerandomize by adding `encrypt(0)`
(lines 99–103). -/
def round3 (p1k : Nat) (rid : Nat) (z : List EncPt) (wPairs : List (EncPt × Ct)) :
    PyRes (Nat × Ct) :=
  PyRes.bind (PyRes.mapM from_encoded_point z) (fun zPoints =>
    PyRes.bind (round3_collect p1k zPoints wPairs) (fun intersection =>
      match intersection with
      | [] => .ok (intersection.length, Ct.enc 0 rid)
      | c :: rest => .ok (intersection.length, Ct.add (rest.foldl Ct.add c) (Ct.enc 0 rid))))

/-- Models `run_protocol(p1, p2)` (lines 137–153).  Line 140 evaluates
`p2.key_pair.public_key` (an `AttributeError`, see `tuple_public_key`)
before any round runs; then round 1, round 2, round 3, and P2's
`output` (line 135: `self.key_pair.decrypt(...)`, see `tuple_decrypt`). -/
def run_protocol (sha : Bytes → Nat)
    (shuffle1 : List EncPt → List EncPt)
    (shuffleZ : List EncPt → List EncPt)
    (shuffleW : List (EncPt × Ct) → List (EncPt × Ct))
    (rid : Nat) (p1 : P1State) (p2 : P2State) : PyRes (Nat × Nat) :=
  PyRes.bind (tuple_public_key p2.key_pair) (fun _pk =>
    PyRes.bind (round1 sha shuffle1 p1) (fun vHashed =>
      PyRes.bind (round2 sha shuffleZ shuffleW p2 vHashed) (fun zw =>
        PyRes.bind (round3 p1.k rid zw.1 zw.2) (fun cs =>
          PyRes.bind (tuple_decrypt p2.key_pair cs.2) (fun s =>
            .ok (cs.1, s))))))

/-- The double application of `scalar_mul` the spec's commutativity
property speaks about: `exponentiate` the point by `a`, then the result
by `b`. -/
def exp_twice (P : Pt) (a b : Nat) : PyRes Pt :=
  PyRes.bind (exponentiate P a) (fun Q => exponentiate Q b)

/-! ## Concrete values used to instantiate theorems -/

/-- A concrete stand-in hash function, used only to instantiate theorems
whose truth was proved for every hash function. -/
def sha_zero : Bytes → Nat := fun _ => 0

/-- The bytes of the fixed test seed `b"test_seed_1234567890"` from
`src/test.py` (line 8). -/
def test_seed : Bytes :=
  [116, 101, 115, 116, 95, 115, 101, 101, 100, 95, 49, 50, 51, 52, 53, 54, 55, 56, 57, 48]

/-- The bytes of the identifier `"user1"` used throughout `src/test.py`. -/
def user1_id : Bytes := [117, 115, 101, 114, 49]

/-- x-coordinate of the P-256 base point (an on-curve point used to
instantiate theorems on concrete valid inputs). -/
def g256x : Nat := 0x6B17D1F2E12C4247F8BCE6E563A440F277037D812DEB33A0F4A13945D898C296

/-- y-coordinate of the P-256 base point. -/
def g256y : Nat := 0x4FE342E2FE1A7F9B8EE7EB4A7C0F9E162BCE33576B315ECECBB6406837BF51F5

/-- A concrete P1 session state (identifiers, seed, secret scalar) used to
instantiate theorems: the identifier and the seed of `src/test.py`. -/
def p1c : P1State := ⟨[user1_id], test_seed, 3⟩

/-- A concrete P2 session state whose seed differs from `p1c`'s — exactly
what the two independent `os.urandom(16)` draws of `Party.__init__`
produce (up to a 2⁻¹²⁸ collision). -/
def p2c : P2State := ⟨[(user1_id, 15)], user1_id, 5, (0, 0)⟩

/-! ## Helper lemmas -/

theorem PyRes.bind_ok (a : α) (f : α → PyRes β) : PyRes.bind (.ok a) f = f a := rfl

theorem PyRes.bind_error (e : PyErr) (f : α → PyRes β) :
    PyRes.bind (.error e) f = .error e := rfl

theorem PyRes.mapM_nil (f : α → PyRes β) : PyRes.mapM f [] = .ok [] := rfl

theorem PyRes.mapM_cons (f : α → PyRes β) (a : α) (as : List α) :
    PyRes.mapM f (a :: as) =
      PyRes.bind (f a) (fun b => PyRes.bind (PyRes.mapM f as) (fun bs => .ok (b :: bs))) := rfl

/-- Unfolding lemma: the matching loop on a cons cell. -/
theorem round3_collect_cons (p1k : Nat) (zPoints : List Pt) (wB : EncPt) (cT : Ct)
    (tl : List (EncPt × Ct)) :
    round3_collect p1k zPoints ((wB, cT) :: tl) =
      PyRes.bind (from_encoded_point wB) (fun wPoint =>
        PyRes.bind (exponentiate wPoint p1k) (fun wExp =>
          PyRes.bind (round3_collect p1k zPoints tl) (fun tail =>
            .ok (if wExp ∈ zPoints then cT :: tail else tail)))) := rfl

/-- `exponentiate` always raises: `ValueError` when `derive_private_key`
rejects the scalar, otherwise `AttributeError` from the nonexistent
`point.to_key()`. -/
theorem exponentiate_eq (P : Pt) (k : Nat) :
    exponentiate P k =
      .error (if k = 0 ∨ p256n ≤ k then PyErr.valueError else PyErr.attributeError) := by
  unfold exponentiate
  by_cases h : k = 0 ∨ p256n ≤ k
  · rw [if_pos h, if_pos h]
  · rw [if_neg h, if_neg h]

/-- Every exception `from_encoded_point` raises is a `ValueError`. -/
theorem from_encoded_point_error {e : EncPt} {er : PyErr}
    (h : from_encoded_point e = .error er) : er = .valueError := by
  cases e with
  | uncompressed x y =>
    simp only [from_encoded_point] at h
    split at h
    · cases h
    · injection h with h2
      exact h2.symm
  | compressed par x =>
    simp only [from_encoded_point] at h
    split at h
    · injection h with h2
      exact h2.symm
    · split at h
      · cases h
      · injection h with h2
        exact h2.symm

/-- Every iteration of round 2's first loop raises: the decode failure's
`ValueError`, or — once the point decodes — `exponentiate`'s exception. -/
theorem round2_zstep_errs (p2k : Nat) (v : EncPt) :
    ∃ er, round2_zstep p2k v = .error er := by
  cases hd : from_encoded_point v with
  | error e =>
    exact ⟨e, by unfold round2_zstep; rw [hd, PyRes.bind_error]⟩
  | ok P =>
    exact ⟨if p2k = 0 ∨ p256n ≤ p2k then PyErr.valueError else PyErr.attributeError,
      by unfold round2_zstep; rw [hd, PyRes.bind_ok, exponentiate_eq, PyRes.bind_error]⟩

/-- The matching loop of round 3 raises on any nonempty pair list: either
the head's decode fails (`ValueError`) or the head's `exponentiate`
raises. -/
theorem round3_collect_head_err (p1k : Nat) (zPts : List Pt) (w : EncPt × Ct)
    (rest : List (EncPt × Ct)) :
    ∃ er, round3_collect p1k zPts (w :: rest) = .error er := by
  obtain ⟨wB, cT⟩ := w
  cases hd : from_encoded_point wB with
  | error e =>
    exact ⟨e, by rw [round3_collect_cons, hd, PyRes.bind_error]⟩
  | ok P =>
    exact ⟨if p1k = 0 ∨ p256n ≤ p1k then PyErr.valueError else PyErr.attributeError,
      by rw [round3_collect_cons, hd, PyRes.bind_ok, exponentiate_eq, PyRes.bind_error]⟩

/-- If some element of the list makes `f` raise, and every exception `f`
raises is a `ValueError`, then the whole loop raises a `ValueError`. -/
theorem PyRes.mapM_error_of_mem {α β : Type} {f : α → PyRes β}
    (hcl : ∀ a e, f a = .error e → e = .valueError)
    {l : List α} {a : α} (ha : a ∈ l) {e : PyErr} (he : f a = .error e) :
    PyRes.mapM f l = .error .valueError := by
  induction l with
  | nil => cases ha
  | cons b bs ih =>
    rw [PyRes.mapM_cons]
    cases hfb : f b with
    | error eb =>
      rw [hcl b eb hfb, PyRes.bind_error]
    | ok vb =>
      rw [PyRes.bind_ok]
      rcases List.mem_cons.mp ha with rfl | hmem
      · rw [hfb] at he
        cases he
      · rw [ih hmem, PyRes.bind_error]

/-- The loop of `hash_to_curve` raises `AttributeError` on any nonempty
counter list: the first iteration's `field_size` attribute read (line 25)
raises, outside the `try`. -/
theorem hash_to_curve_go_cons (sha : Bytes → Nat) (data : Bytes)
    (i : Nat) (rest : List Nat) :
    hash_to_curve_go sha data (i :: rest) = .error .attributeError := rfl

/-- `hash_to_curve` raises `AttributeError` for every hash function and
all arguments: the first loop iteration reads the nonexistent
`curve.field_size` attribute (line 25) before the `try`, so nothing is
caught and no later counter is examined. -/
theorem hash_to_curve_eq (sha : Bytes → Nat) (ident seed : Bytes) :
    hash_to_curve sha ident seed = .error .attributeError := by
  unfold hash_to_curve
  have h1000 : List.range 1000 = 0 :: (List.range 999).map Nat.succ :=
    List.range_succ_eq_map 999
  rw [h1000]
  exact hash_to_curve_go_cons sha (seed ++ ident) 0 ((List.range 999).map Nat.succ)

/-- The decode in `DDHGroup.__init__` fails: the hard-coded point (the
secp256k1 base point) is not on P-256. -/
theorem ddh_group_init_error : ddh_group_init = .error .valueError := by decide

/-- `Party.__init__` raises `ValueError` (from line 51) whatever the
random draws would have been. -/
theorem party_init_error (u : Bytes) (k : Nat) : party_init u k = .error .valueError := by
  unfold party_init
  rw [ddh_group_init_error]
  rfl

/-! ## The claims -/

/-- C1: the claimed end-to-end correctness — a complete protocol run
returning the intersection cardinality and the decrypted intersection
sum — fails on the code: for every pair of session states and all
parameters, `run_protocol`'s first statement (line 140,
`p2.key_pair.public_key` on the tuple that phe's key generation returns)
raises `AttributeError`, so no `(cardinality, sum)` pair is ever
produced (and party construction itself already raises, see C5). -/
theorem run_protocol_never_returns_c1 (sha : Bytes → Nat)
    (sh1 shZ : List EncPt → List EncPt) (shW : List (EncPt × Ct) → List (EncPt × Ct))
    (rid : Nat) (p1 : P1State) (p2 : P2State) :
    run_protocol sha sh1 shZ shW rid p1 p2 = .error .attributeError := rfl

/-- C2: the shared-session-seed invariant fails on the code.
(1) `Party.__init__` raises, so the code as written never constructs a
session in which any seed exists; (2) nothing couples the two parties'
seeds: each party's seed is its own independent `os.urandom(16)` draw
(line 54), and `run_protocol` accepts states whose seeds differ without
establishing or checking seed equality (it proceeds, failing only for the
unrelated `AttributeError` of line 140). -/
theorem seeds_not_shared_c2 :
    (∀ (u : Bytes) (kdraw : Nat), party_init u kdraw = .error .valueError) ∧
      (∀ (sha : Bytes → Nat) (sh1 shZ : List EncPt → List EncPt)
          (shW : List (EncPt × Ct) → List (EncPt × Ct)) (rid : Nat)
          (p1 : P1State) (p2 : P2State), p1.seed ≠ p2.seed →
          run_protocol sha sh1 shZ shW rid p1 p2 = .error .attributeError) := by
  refine ⟨party_init_error, ?_⟩
  intro sha sh1 shZ shW rid p1 p2 _hneq
  rfl

/-- Witness for C2: concrete states with different seeds (the generic
situation after two independent `os.urandom(16)` draws) are accepted by
`run_protocol` unchecked. -/
theorem seeds_not_shared_c2_witness :
    run_protocol sha_zero id id id 0 p1c p2c = .error .attributeError :=
  seeds_not_shared_c2.2 sha_zero id id id 0 p1c p2c (by decide)

/-- C3: the commutativity claim has no instances on the code: a composed
scalar multiplication collapses to the first application's exception —
`exponentiate` raises for every input (`ValueError` when
`derive_private_key` rejects an out-of-range scalar, otherwise
`AttributeError` from the nonexistent `point.to_key()` of line 37) and
never yields a point, so neither side of
`scalar_mul(scalar_mul(P,a),b) = scalar_mul(scalar_mul(P,b),a)` ever
produces one. -/
theorem scalar_mul_never_returns_c3 (P : Pt) (a b : Nat) :
    exp_twice P a b = exponentiate P a ∧
      exponentiate P a =
        .error (if a = 0 ∨ p256n ≤ a then PyErr.valueError else PyErr.attributeError) := by
  constructor
  · unfold exp_twice
    rw [exponentiate_eq, PyRes.bind_error]
  · exact exponentiate_eq P a

/-- C4 counterexample: `round3` does not return the rerandomized
homomorphic sum for a nonempty matched-pair input — at a decodable pair
with an in-range scalar it raises `AttributeError` (line 90's
`exponentiate` reaches the nonexistent `point.to_key()`). -/
theorem round3_attribute_error_c4 :
    round3 1 9 [EncPt.uncompressed g256x g256y]
        [(EncPt.uncompressed g256x g256y, Ct.enc 5 7)] = .error .attributeError := by decide

/-- C4 amended: when the `Z` points decode, `round3` on an empty
`w_pairs` list returns cardinality 0 with the fresh `encrypt(pk₂, 0)`
(lines 96–97) — the only reachable success; for any nonempty `w_pairs`
whose first point decodes and with the scalar in range, `round3` raises
`AttributeError` from `exponentiate` (line 90), so the matched-sublist /
rerandomized-sum branch of lines 98–103 is unreachable. -/
theorem round3_empty_or_raises_c4 :
    (∀ (p1k rid : Nat) (z : List EncPt) (zPts : List Pt),
        PyRes.mapM from_encoded_point z = .ok zPts →
        round3 p1k rid z [] = .ok (0, Ct.enc 0 rid)) ∧
      (∀ (p1k rid : Nat) (z : List EncPt) (zPts : List Pt) (wB : EncPt) (cT : Ct)
          (rest : List (EncPt × Ct)) (P : Pt),
        PyRes.mapM from_encoded_point z = .ok zPts →
        from_encoded_point wB = .ok P →
        p1k ≠ 0 → p1k < p256n →
        round3 p1k rid z ((wB, cT) :: rest) = .error .attributeError) := by
  constructor
  · intro p1k rid z zPts hz
    unfold round3
    rw [hz, PyRes.bind_ok]
    rfl
  · intro p1k rid z zPts wB cT rest P hz hw hk1 hk2
    have hcond : ¬(p1k = 0 ∨ p256n ≤ p1k) := by
      push_neg
      exact ⟨hk1, hk2⟩
    unfold round3
    rw [hz, PyRes.bind_ok, round3_collect_cons, hw, PyRes.bind_ok, exponentiate_eq,
      if_neg hcond, PyRes.bind_error, PyRes.bind_error]

/-- Witness for the amended C4: both branches at concrete inputs — the
empty-pairs success and the nonempty-pairs `AttributeError`. -/
theorem round3_empty_or_raises_c4_witness :
    round3 1 9 [EncPt.uncompressed g256x g256y] [] = .ok (0, Ct.enc 0 9) ∧
      round3 1 9 [EncPt.uncompressed g256x g256y]
          [(EncPt.uncompressed g256x g256y, Ct.enc 5 7)] = .error .attributeError := by
  constructor
  · exact round3_empty_or_raises_c4.1 1 9 [EncPt.uncompressed g256x g256y]
      [(g256x, g256y)] (by decide)
  · exact round3_empty_or_raises_c4.2 1 9 [EncPt.uncompressed g256x g256y]
      [(g256x, g256y)] (EncPt.uncompressed g256x g256y) (Ct.enc 5 7) [] (g256x, g256y)
      (by decide) (by decide) (by decide) (by decide)

/-- C5: the claim that every freshly constructed party holds a secret
scalar in `[1, q−1]` fails because the code never finishes constructing a
party: `Party.__init__` raises `ValueError` at `self.ddh = DDHGroup()`
(line 51) — the hard-coded generator is secp256k1's base point, which is
not on P-256 — before line 55 would assign `k`.  (Line 55 itself draws
from `randint(1, self.curve.field_size − 1)`, where `field_size` is not
an attribute of the library's curve objects, so not even the intended
bound is available.)  Whatever the random draws would have produced,
construction raises. -/
theorem no_party_constructed_c5 (u : Bytes) (kdraw : Nat) :
    party_init u kdraw = .error .valueError := party_init_error u kdraw

/-- C6 counterexample: `N = 2^1535` is an admissible plaintext modulus of
the keygen the code performs (`n_length=1536` — a modulus of exactly 1536
bits), and it is below `2^3072`, refuting the ≥3072-bit claim. -/
theorem paillier_modulus_not_3072_c6 :
    generate_paillier_keypair (2 ^ 1535) = true ∧ (2 : Nat) ^ 1535 < 2 ^ 3072 := by
  constructor
  · unfold generate_paillier_keypair phe_keypair_modulus
    simp only [Bool.and_eq_true, decide_eq_true_eq]
    exact ⟨Nat.pow_le_pow_right (by norm_num) (by norm_num),
      Nat.pow_lt_pow_right (by norm_num) (by norm_num)⟩
  · exact Nat.pow_lt_pow_right (by norm_num) (by norm_num)

/-- C6 amended: the key generation of line 59 produces a plaintext
modulus of exactly 1536 bits; in particular every possible modulus is
strictly below `2^3072`, so the ≥3072-bit requirement is never met. -/
theorem paillier_modulus_1536_bits_c6 (N : Nat) (h : generate_paillier_keypair N = true) :
    N < 2 ^ 3072 := by
  unfold generate_paillier_keypair phe_keypair_modulus at h
  simp only [Bool.and_eq_true, decide_eq_true_eq] at h
  exact lt_of_lt_of_le h.2 (Nat.pow_le_pow_right (by norm_num) (by norm_num))

/-- Witness for the amended C6 at the concrete modulus `2^1535`. -/
theorem paillier_modulus_1536_bits_c6_witness : (2 : Nat) ^ 1535 < 2 ^ 3072 :=
  paillier_modulus_1536_bits_c6 (2 ^ 1535) (by
    unfold generate_paillier_keypair phe_keypair_modulus
    simp only [Bool.and_eq_true, decide_eq_true_eq]
    exact ⟨Nat.pow_le_pow_right (by norm_num) (by norm_num),
      Nat.pow_lt_pow_right (by norm_num) (by norm_num)⟩)

/-- C7: the claim that `hash_to_curve` returns an on-curve point of order
`q` and never the identity fails because `hash_to_curve` never returns a
point at all: for every hash function and all arguments it raises
`AttributeError` — line 25 reads `self.curve.field_size`, an attribute
the library's curve objects do not have, outside the `try`, on the very
first loop iteration. -/
theorem hash_to_curve_never_a_point_c7 (sha : Bytes → Nat) (ident seed : Bytes) :
    hash_to_curve sha ident seed = .error .attributeError :=
  hash_to_curve_eq sha ident seed

/-- C8: two invocations of `hash_to_curve` with identical arguments (the
setting of `test_hash_to_curve_consistency` in `src/test.py`, identifier
`"user1"` and the fixed test seed) produce identical outcomes, but that
outcome is the line-25 `AttributeError`, not an encoded point — the
test's coordinate comparison can never run. -/
theorem hash_two_invocations_no_point_c8 (sha : Bytes → Nat) :
    (hash_to_curve sha user1_id test_seed, hash_to_curve sha user1_id test_seed) =
      (PyRes.error .attributeError, PyRes.error .attributeError) := by
  rw [hash_to_curve_eq]

/-- C9 counterexample: a point that fails decoding does not always abort
the round with the invalid-point `ValueError`: with a decodable point
ahead of the failing one, round 2 aborts earlier, with the
`AttributeError` of the broken `exponentiate` (nonexistent
`point.to_key()`), before the failing point is even decoded. -/
theorem round2_attribute_error_on_bad_point_c9 :
    from_encoded_point (EncPt.uncompressed 0 0) = .error .valueError ∧
      round2 sha_zero id id p2c
          [EncPt.uncompressed g256x g256y, EncPt.uncompressed 0 0] =
        .error .attributeError := by
  constructor
  · decide
  · decide

/-- C9 amended: a point that fails decoding still means the round never
returns a result — but not always with the invalid-point error class:
(1) round 2 with a failing point among the received points always aborts
with some exception (the decode `ValueError` when the failing point is
reached first, otherwise the broken `exponentiate`'s exception on an
earlier decodable point); (2) round 3 with a failing point in `Z` always
aborts with the decode `ValueError` — the `Z` loop (lines 81–84) only
decodes; (3) round 3 with a failing point among the `W` pairs always
aborts with some exception.  In every case no partial result is
returned. -/
theorem rounds_abort_no_result_c9 :
    (∀ (sha : Bytes → Nat) (shZ : List EncPt → List EncPt)
        (shW : List (EncPt × Ct) → List (EncPt × Ct)) (p : P2State)
        (vHashed : List EncPt) (v : EncPt) (e : PyErr),
        v ∈ vHashed → from_encoded_point v = .error e →
          ∃ er, round2 sha shZ shW p vHashed = .error er) ∧
      (∀ (p1k rid : Nat) (z : List EncPt) (wPairs : List (EncPt × Ct))
          (v : EncPt) (e : PyErr),
        v ∈ z → from_encoded_point v = .error e →
          round3 p1k rid z wPairs = .error .valueError) ∧
      (∀ (p1k rid : Nat) (z : List EncPt) (wPairs : List (EncPt × Ct))
          (wc : EncPt × Ct) (e : PyErr),
        wc ∈ wPairs → from_encoded_point wc.1 = .error e →
          ∃ er, round3 p1k rid z wPairs = .error er) := by
  have hclDec : ∀ (a : EncPt) (er : PyErr), from_encoded_point a = .error er →
      er = .valueError := fun _ _ h => from_encoded_point_error h
  refine ⟨?_, ?_, ?_⟩
  · intro sha shZ shW p vHashed v e hv _he
    cases vHashed with
    | nil => cases hv
    | cons v0 rest =>
      obtain ⟨er, her⟩ := round2_zstep_errs p.k v0
      refine ⟨er, ?_⟩
      unfold round2
      rw [PyRes.mapM_cons, her, PyRes.bind_error, PyRes.bind_error]
  · intro p1k rid z wPairs v e hv he
    unfold round3
    rw [PyRes.mapM_error_of_mem hclDec hv he, PyRes.bind_error]
  · intro p1k rid z wPairs wc e hwc _he
    unfold round3
    cases hz : PyRes.mapM from_encoded_point z with
    | error e1 =>
      exact ⟨e1, by rw [PyRes.bind_error]⟩
    | ok zPts =>
      cases wPairs with
      | nil => cases hwc
      | cons w0 rest =>
        obtain ⟨er, her⟩ := round3_collect_head_err p1k zPts w0 rest
        exact ⟨er, by rw [PyRes.bind_ok, her, PyRes.bind_error]⟩

/-- Witness for the amended C9: concrete aborts for all three parts — a
failing point in round 2's input, in round 3's `Z`, and in round 3's `W`
pairs. -/
theorem rounds_abort_no_result_c9_witness :
    (∃ er, round2 sha_zero id id p2c [EncPt.uncompressed 0 0] = .error er) ∧
      round3 1 0 [EncPt.uncompressed 0 0] [] = .error .valueError ∧
      (∃ er, round3 1 0 [] [(EncPt.uncompressed 0 0, Ct.enc 1 1)] = .error er) := by
  refine ⟨?_, ?_, ?_⟩
  · exact rounds_abort_no_result_c9.1 sha_zero id id p2c [EncPt.uncompressed 0 0]
      (EncPt.uncompressed 0 0) .valueError (by decide) (by decide)
  · exact rounds_abort_no_result_c9.2.1 1 0 [EncPt.uncompressed 0 0] []
      (EncPt.uncompressed 0 0) .valueError (by decide) (by decide)
  · exact rounds_abort_no_result_c9.2.2 1 0 [] [(EncPt.uncompressed 0 0, Ct.enc 1 1)]
      (EncPt.uncompressed 0 0, Ct.enc 1 1) .valueError (by decide) (by decide)

/-- C10 counterexample: at concrete arguments no loop attempt yields a
valid point, yet `hash_to_curve` raises `AttributeError` (the line-25
`field_size` lookup), not the claim's
`ValueError("Failed to hash to curve")`, and returns no point. -/
theorem hash_attribute_error_not_exhaustion_c10 :
    hash_to_curve sha_zero user1_id test_seed = .error .attributeError :=
  hash_to_curve_eq sha_zero user1_id test_seed

/-- C10 amended: the loop examines only counter `i = 0`: its iteration
reads the nonexistent `self.curve.field_size` (line 25) outside the
`try`, raising `AttributeError`, so the function terminates at once; the
1000-attempt exhaustion error is never raised and no point is ever
returned — the outcome on the full counter range equals the outcome on
the single counter 0. -/
theorem hash_first_attempt_decides_c10 (sha : Bytes → Nat) (ident seed : Bytes) :
    hash_to_curve sha ident seed = hash_to_curve_go sha (seed ++ ident) [0] ∧
      hash_to_curve_go sha (seed ++ ident) [0] = .error .attributeError := by
  constructor
  · rw [hash_to_curve_eq]
    rfl
  · rfl
